import Mathlib

/-!
Verification development for the `pockettts` Go package
(go-call-pocket-tts): a wrapper that spawns the `pocket-tts` CLI as a
subprocess (one-shot path) or talks to a `pocket-tts serve` HTTP server
(warm path).

The definitions below are a shallow embedding of the package's functions.
Mutable OS state (process start outcomes, wait outcomes, the context's
cancellation state, HTTP responses, file reads) is passed explicitly as an
environment record holding the outcomes the code branches on; the functions
themselves mirror the Go control flow statement by statement.

Bytes are modelled as `Nat` (each entry a value `< 256` where it comes from
real byte writes); machine integers that could wrap are reduced modulo
`2 ^ 16` / `2 ^ 32` exactly where Go's `uint16`/`uint32` arithmetic wraps.
-/

set_option autoImplicit false

namespace PocketTTS

/-- A byte value (0..255) as produced by the Go code's byte slices. -/
abbrev Byte := Nat

/-- The package's closed error taxonomy, from `errors.go` and the wrapped
`fmt.Errorf` failures.  `errMalformedPayload` groups the `fmt.Errorf`
failures of `parseWAVHeader` (too short / not readable WAV / incomplete
metadata); `errWrapped` groups the other wrapped low-level I/O failures. -/
inductive TTSError where
  /-- `ErrEmptyText`: text was empty or whitespace-only. -/
  | errEmptyText : TTSError
  /-- `ErrExecutableNotFound`, carrying the executable name. -/
  | errExecutableNotFound (executable : String) : TTSError
  /-- `ErrProcessTimeout`, carrying the captured stderr excerpt (or an
  admission-wait message). -/
  | errProcessTimeout (stderr : String) : TTSError
  /-- `ErrNonZeroExit`, carrying the numeric exit code and stderr excerpt. -/
  | errNonZeroExit (exitCode : Int) (stderr : String) : TTSError
  /-- structural-validation failure of the returned payload. -/
  | errMalformedPayload (msg : String) : TTSError
  /-- wrapped low-level I/O failure (pipe creation, stdin write, HTTP). -/
  | errWrapped (msg : String) : TTSError
  deriving DecidableEq, Repr

/-- `truncate` from `runner.go`: keep at most `n` (bytes, modelled as
characters) from the end of `s`, prefixing the ellipsis marker when cut. -/
def truncate (s : String) (n : Nat) : String :=
  if s.length ≤ n then s else "…" ++ (s.drop (s.length - n))

/-- `runResult` from `runner.go`: captured output of a subprocess run. -/
structure RunResult where
  stdout : List Byte
  stderr : String
  deriving DecidableEq, Repr

/-- The `runner` struct from `runner.go` (the `logWriter io.Writer` field is
modelled by whether a sink is attached). -/
structure Runner where
  executablePath : String := ""
  hasLogWriter : Bool := false
  deriving DecidableEq, Repr

/-- The executable name `runner.run` uses: the override, or `"pocket-tts"`
when the override is empty (lines 26–29 of `runner.go`). -/
def Runner.effectiveExe (r : Runner) : String :=
  if r.executablePath = "" then "pocket-tts" else r.executablePath

/-- Environment of one subprocess run: the OS-level outcomes that
`runner.run` branches on, passed explicitly. -/
structure ProcEnv where
  /-- `cmd.StdinPipe()` fails. -/
  stdinPipeErr : Bool := false
  /-- `cmd.Start()` fails and `isNotFound(err)` holds. -/
  startNotFound : Bool := false
  /-- `cmd.Start()` fails with some other error. -/
  startOtherErr : Bool := false
  /-- the stdin writer's `stdinPipe.Write` fails. -/
  stdinWriteErr : Bool := false
  /-- `cmd.Wait()` returns a non-nil error. -/
  waitErr : Bool := false
  /-- `ctx.Err() != nil` at the time `cmd.Wait()` returns. -/
  ctxDone : Bool := false
  /-- `cmd.ProcessState.ExitCode()`. -/
  exitCode : Int := 0
  /-- the bytes the subprocess wrote to standard output. -/
  stdout : List Byte := []
  /-- the text the subprocess wrote to standard error. -/
  stderr : String := ""
  deriving DecidableEq, Repr

/-- Outcome of `runner.run` together with whether an OS process was
actually created (i.e. `cmd.Start()` succeeded). -/
structure RunOutcome where
  result : Except TTSError RunResult
  processCreated : Bool
  deriving Repr

/-- `runner.run` from `runner.go`, transcribed branch by branch:
stdin-pipe creation, `cmd.Start()` with `isNotFound` classification,
the stdin write's outcome (a failure kills the process and surfaces as a
wrapped I/O error), then `cmd.Wait()`; on a wait error the classification
checks `ctx.Err()` first (timeout) and otherwise reports the exit code;
stderr is truncated to its final 512 bytes in all reports. -/
def Runner.run (r : Runner) (env : ProcEnv) (_args : List String)
    (_stdinPayload : List Byte) : RunOutcome :=
  if env.stdinPipeErr then
    { result := .error (.errWrapped "pockettts: create stdin pipe"), processCreated := false }
  else if env.startNotFound then
    { result := .error (.errExecutableNotFound r.effectiveExe), processCreated := false }
  else if env.startOtherErr then
    { result := .error (.errWrapped "pockettts: start process"), processCreated := false }
  else if env.stdinWriteErr then
    { result := .error (.errWrapped "pockettts: write stdin"), processCreated := true }
  else
    let res : RunResult := { stdout := env.stdout, stderr := truncate env.stderr 512 }
    if env.waitErr then
      if env.ctxDone then
        { result := .error (.errProcessTimeout res.stderr), processCreated := true }
      else
        { result := .error (.errNonZeroExit env.exitCode res.stderr), processCreated := true }
    else
      { result := .ok res, processCreated := true }

/-- The lifecycle steps of `runner.run` whose relative order the design
cares about. -/
inductive RunStep where
  | startProcess
  | spawnStdinWriter
  | joinStdinWriter
  | waitForExit
  deriving DecidableEq, Repr

/-- The order in which `runner.run` performs its lifecycle steps,
transcribed from the source: `cmd.Start()` (line 49), `go func` launching
the stdin writer (line 60), `wg.Wait()` joining the writer (line 66), and
only then `cmd.Wait()` (line 72). -/
def runnerStepOrder : List RunStep :=
  [.startProcess, .spawnStdinWriter, .joinStdinWriter, .waitForExit]

/-- Whether the stdin write is issued on its own concurrent task: in
`runner.go` lines 60–64 the write runs inside `go func`, so this is true. -/
def stdinWriterConcurrent : Bool := true

/-- Position of a lifecycle step in `runnerStepOrder`. -/
def stepIndex (s : RunStep) : Nat := runnerStepOrder.indexOf s

/-- Go's `unicode.IsSpace` on the `White_Space` code points, used by
`strings.TrimSpace`. -/
def goIsSpace (c : Char) : Bool :=
  let n := c.toNat
  decide ((9 ≤ n ∧ n ≤ 13) ∨ n = 32 ∨ n = 0x85 ∨ n = 0xA0 ∨ n = 0x1680 ∨
    (0x2000 ≤ n ∧ n ≤ 0x200A) ∨ n = 0x2028 ∨ n = 0x2029 ∨ n = 0x202F ∨
    n = 0x205F ∨ n = 0x3000)

/-- `strings.TrimSpace`: drop leading and trailing white space. -/
def trimSpace (s : String) : String :=
  ⟨((s.data.dropWhile goIsSpace).reverse.dropWhile goIsSpace).reverse⟩

/-- `formatFloat` from `format.go` wraps `strconv.FormatFloat`, and
`formatInt` wraps `fmt.Sprintf "%d"`.  Modelled from the spec: the decimal
rendering lives in the external Go standard library (not in `src/`); the
spec calls it only "its formatted value", so float64 parameters are
modelled as `Rat` rendered by the standard `Rat` printer, and integers by
the standard decimal printer (which coincides with `%d`). -/
def formatFloat (f : Rat) : String := toString f

/-- see `formatFloat`. -/
def formatInt (n : Int) : String := toString n

/-- The `Options` struct from `pockettts.go`.  `float64` fields are
modelled as `Rat` (only `≠ 0` tests and opaque formatting are performed on
them); the `LogWriter io.Writer` field by whether a sink is attached. -/
structure Options where
  Voice : String := ""
  Config : String := ""
  Temperature : Rat := 0
  LSDDecodeSteps : Int := 0
  NoiseClamp : Rat := 0
  EOSThreshold : Rat := 0
  FramesAfterEOS : Int := 0
  MaxTokens : Int := 0
  Quiet : Bool := false
  ExecutablePath : String := ""
  hasLogWriter : Bool := false
  Concurrency : Int := 0
  deriving DecidableEq, Repr

/-- The `Client` struct: options plus the optional semaphore channel.
`sem = none` models the nil channel ("unlimited"); `some cap` models a
buffered channel of capacity `cap`. -/
structure Client where
  opts : Options
  sem : Option Int
  deriving DecidableEq, Repr

/-- `newClient` from `client.go`: the semaphore channel is created only
when `opts.Concurrency > 0`; otherwise the field stays nil. -/
def newClient (opts : Options) : Client :=
  { opts := opts, sem := if opts.Concurrency > 0 then some opts.Concurrency else none }

/-- `Client.buildArgs` from `client.go`: the fixed
`generate --text - --output-path -` prefix, then each optional flag
appended exactly when its option differs from the zero value, in source
order. -/
def Client.buildArgs (c : Client) : List String :=
  let args := ["generate", "--text", "-", "--output-path", "-"]
  let args := args ++ (if c.opts.Voice ≠ "" then ["--voice", c.opts.Voice] else [])
  let args := args ++ (if c.opts.Config ≠ "" then ["--config", c.opts.Config] else [])
  let args := args ++
    (if c.opts.Temperature ≠ 0 then ["--temperature", formatFloat c.opts.Temperature] else [])
  let args := args ++
    (if c.opts.LSDDecodeSteps ≠ 0 then
      ["--lsd-decode-steps", formatInt c.opts.LSDDecodeSteps] else [])
  let args := args ++
    (if c.opts.NoiseClamp ≠ 0 then ["--noise-clamp", formatFloat c.opts.NoiseClamp] else [])
  let args := args ++
    (if c.opts.EOSThreshold ≠ 0 then
      ["--eos-threshold", formatFloat c.opts.EOSThreshold] else [])
  let args := args ++
    (if c.opts.FramesAfterEOS ≠ 0 then
      ["--frames-after-eos", formatInt c.opts.FramesAfterEOS] else [])
  let args := args ++
    (if c.opts.MaxTokens ≠ 0 then ["--max-tokens", formatInt c.opts.MaxTokens] else [])
  let args := args ++ (if c.opts.Quiet then ["--quiet"] else [])
  args

/-- The ASCII bytes of a magic signature such as `"RIFF"`. -/
def magicBytes (s : String) : List Byte := s.data.map Char.toNat

/-- The `n` bytes of `d` starting at offset `off`. -/
def bytesAt (d : List Byte) (off n : Nat) : List Byte := (d.drop off).take n

/-- Little-endian 16-bit read at `off` (missing bytes read as 0). -/
def readU16LE (d : List Byte) (off : Nat) : Nat :=
  d.getD off 0 + 256 * d.getD (off + 1) 0

/-- Little-endian 32-bit read at `off` (missing bytes read as 0). -/
def readU32LE (d : List Byte) (off : Nat) : Nat :=
  d.getD off 0 + 256 * d.getD (off + 1) 0 + 65536 * d.getD (off + 2) 0 +
    16777216 * d.getD (off + 3) 0

/-- Modelled from the spec: the WAV decoder's `ReadInfo` lives in the
external `github.com/cwbudde/wav` dependency, not in `src/`.  Per §4.1 the
validator requires at least the fixed minimal header length (44 bytes),
verifies the container magic signature (`RIFF` at offset 0) and the
format-tag signature (`WAVE` at offset 8) at fixed offsets, and otherwise
extracts channel count (offset 22), sample rate (offset 24) and bit depth
(offset 34) from the standard PCM header layout written by
`makeWAVHeader`.  `none` models `dec.Err() != nil`. -/
def decodeWAVInfo (d : List Byte) : Option (Nat × Nat × Nat) :=
  if d.length < 44 then none
  else if bytesAt d 0 4 ≠ magicBytes "RIFF" then none
  else if bytesAt d 8 4 ≠ magicBytes "WAVE" then none
  else some (readU32LE d 24, readU16LE d 22, readU16LE d 34)

/-- `parseWAVHeader` from `client.go`: empty input is rejected outright,
then the decode must succeed, then all three extracted fields must be
non-zero; returns `(sampleRate, channels, bitsPerSample)`. -/
def parseWAVHeader (data : List Byte) : Except TTSError (Nat × Nat × Nat) :=
  if data.length = 0 then
    .error (.errMalformedPayload "pockettts: WAV output too short")
  else
    match decodeWAVInfo data with
    | none => .error (.errMalformedPayload "pockettts: output is not a readable WAV file")
    | some (sampleRate, channels, bitsPerSample) =>
      if sampleRate = 0 ∨ channels = 0 ∨ bitsPerSample = 0 then
        .error (.errMalformedPayload "pockettts: output WAV metadata is incomplete")
      else
        .ok (sampleRate, channels, bitsPerSample)

/-- `putU32` from the test helpers: little-endian bytes of a `uint32`. -/
def putU32 (v : Nat) : List Byte :=
  [v % 256, v / 256 % 256, v / 65536 % 256, v / 16777216 % 256]

/-- `putU16` from the test helpers: little-endian bytes of a `uint16`. -/
def putU16 (v : Nat) : List Byte := [v % 256, v / 256 % 256]

/-- `makeWAVHeader` from the test file: a minimal valid 44-byte PCM WAV
header with `dataSize = 0`.  `byteRate` is computed in `uint32` arithmetic
and `blockAlign` in `uint16` arithmetic, hence the explicit reductions. -/
def makeWAVHeader (sampleRate channels bitsPerSample : Nat) : List Byte :=
  let byteRate := sampleRate % 2 ^ 32 * (channels % 2 ^ 16) % 2 ^ 32 *
    (bitsPerSample % 2 ^ 16) % 2 ^ 32 / 8
  let blockAlign := channels % 2 ^ 16 * (bitsPerSample % 2 ^ 16) % 2 ^ 16 / 8
  magicBytes "RIFF" ++ putU32 36 ++ magicBytes "WAVE" ++ magicBytes "fmt " ++
    putU32 16 ++ putU16 1 ++ putU16 channels ++ putU32 sampleRate ++
    putU32 byteRate ++ putU16 blockAlign ++ putU16 bitsPerSample ++
    magicBytes "data" ++ putU32 0

/-- `GenerationStats` from `pockettts.go`.  `Duration` is a
`time.Duration` (nanoseconds); the zero value is 0. -/
structure GenerationStats where
  Duration : Int := 0
  deriving DecidableEq, Repr

/-- `WAVResult` from `pockettts.go`: payload bytes, parsed metadata and
timing statistics.  A literal without `Stats` leaves the zero value, as in
Go. -/
structure WAVResult where
  Data : List Byte
  SampleRate : Nat
  Channels : Nat
  BitsPerSample : Nat
  Stats : GenerationStats := {}
  deriving DecidableEq, Repr

/-- Outcome of the `select` on the semaphore in `Client.generate`: either
a slot was granted, or `ctx.Done()` fired first (all slots held until the
context expired). -/
inductive AdmissionOutcome where
  | slotGranted
  | ctxDoneFirst
  deriving DecidableEq, Repr

/-- Which process/semaphore operations a `Client.generate` call performed. -/
structure GenEffects where
  /-- a value was sent into the semaphore channel. -/
  slotAcquired : Bool := false
  /-- the deferred receive ran, freeing the slot again. -/
  slotReleased : Bool := false
  /-- `cmd.Start()` succeeded, i.e. an OS process was created. -/
  subprocessStarted : Bool := false
  deriving DecidableEq, Repr

instance {ε α : Type} [DecidableEq ε] [DecidableEq α] : DecidableEq (Except ε α) :=
  fun x y =>
    match x, y with
    | .ok a, .ok b => decidable_of_iff (a = b) (by simp)
    | .error a, .error b => decidable_of_iff (a = b) (by simp)
    | .ok _, .error _ => .isFalse (by simp)
    | .error _, .ok _ => .isFalse (by simp)

/-- Result and effects of one `Client.generate` call. -/
structure GenOutcome where
  result : Except TTSError WAVResult
  effects : GenEffects
  deriving DecidableEq, Repr

/-- UTF-8 bytes of a string, as Go's `[]byte(text)`. -/
def strBytes (s : String) : List Byte := s.toUTF8.toList.map (fun b => b.toNat)

/-- The `runner` literal `Client.generate` builds:
`&runner{executablePath: c.opts.ExecutablePath, logWriter: c.opts.LogWriter}`. -/
def cliRunner (c : Client) : Runner :=
  { executablePath := c.opts.ExecutablePath, hasLogWriter := c.opts.hasLogWriter }

/-- `Client.generate` from `client.go`, transcribed in source order:
input validation (`ErrEmptyText`), the semaphore `select` (acquire a slot
or fail with `ErrProcessTimeout` on `ctx.Done()`, the acquired slot being
released by `defer` on every later path), `buildArgs`, `runner.run`, the
empty-stdout check (synthetic `ErrNonZeroExit` with code 0), and
`parseWAVHeader`; on success the `WAVResult` literal sets `Data` and the
three metadata fields only (no `Stats`). -/
def Client.generate (c : Client) (admission : AdmissionOutcome) (env : ProcEnv)
    (text : String) : GenOutcome :=
  if trimSpace text = "" then
    { result := .error .errEmptyText, effects := {} }
  else
    match c.sem, admission with
    | some _, .ctxDoneFirst =>
      { result := .error
          (.errProcessTimeout "context cancelled while waiting for concurrency slot")
        effects := {} }
    | _, _ =>
      let acquired := c.sem.isSome
      let args := c.buildArgs
      let r : Runner := cliRunner c
      let ro := r.run env args (strBytes text)
      let effects : GenEffects :=
        { slotAcquired := acquired, slotReleased := acquired
          subprocessStarted := ro.processCreated }
      match ro.result with
      | .error e => { result := .error e, effects := effects }
      | .ok res =>
        if res.stdout.length = 0 then
          { result := .error (.errNonZeroExit 0 "empty stdout — no WAV produced")
            effects := effects }
        else
          match parseWAVHeader res.stdout with
          | .error e => { result := .error e, effects := effects }
          | .ok (sr, ch, bps) =>
            { result := .ok
                { Data := res.stdout, SampleRate := sr, Channels := ch, BitsPerSample := bps }
              effects := effects }

/-- `ServerGenerateOptions` from `server.go`. -/
structure ServerGenerateOptions where
  VoiceURL : String := ""
  VoiceWAVPath : String := ""
  deriving DecidableEq, Repr

/-- One part of the multipart/form-data body built by `buildTTSRequest`. -/
inductive MultipartPart where
  /-- `w.WriteField name value`. -/
  | field (name value : String) : MultipartPart
  /-- `w.CreateFormFile name filename` followed by copying the file bytes. -/
  | filePart (name filename : String) (content : List Byte) : MultipartPart
  deriving DecidableEq, Repr

/-- Environment of one `ServerClient.Generate` call: the file-system and
HTTP outcomes the code branches on. -/
structure ServerEnv where
  /-- `os.Open(opts.VoiceWAVPath)` fails. -/
  voiceFileOpenErr : Bool := false
  /-- the bytes of the opened voice file. -/
  voiceFileContent : List Byte := []
  /-- `s.http.Do(req)` fails. -/
  httpDoErr : Bool := false
  /-- the HTTP response status code. -/
  statusCode : Int := 200
  /-- the HTTP response body bytes. -/
  responseBody : List Byte := []
  /-- `io.ReadAll(resp.Body)` fails. -/
  readBodyErr : Bool := false
  /-- `time.Since(start)`: the measured wall-clock duration (ns). -/
  elapsed : Int := 0
  deriving DecidableEq, Repr

/-- `filepath.Base` (Go standard library): the last element of the path
after dropping trailing separators; `"."` for the empty path, `"/"` for a
path of only separators. -/
def baseName (p : String) : String :=
  if p = "" then "."
  else
    let trimmed := (p.data.reverse.dropWhile (· = '/')).reverse
    if trimmed = [] then "/"
    else ⟨(trimmed.reverse.takeWhile (· ≠ '/')).reverse⟩

/-- Bytes rendered as text, as Go's `string(b)` on the captured excerpt
(byte-transparent model). -/
def bytesToString (l : List Byte) : String := ⟨l.map Char.ofNat⟩

/-- `buildTTSRequest` from `server.go`: always writes the `text` field;
then, if `VoiceURL` is non-empty, writes the `voice_url` field; otherwise,
if `VoiceWAVPath` is non-empty, opens the file (a failure surfaces as a
wrapped I/O error) and uploads its bytes as the `voice_wav` file part. -/
def buildTTSRequest (text : String) (opts : ServerGenerateOptions) (env : ServerEnv) :
    Except TTSError (List MultipartPart) :=
  let parts := [MultipartPart.field "text" text]
  if opts.VoiceURL ≠ "" then
    .ok (parts ++ [.field "voice_url" opts.VoiceURL])
  else if opts.VoiceWAVPath ≠ "" then
    if env.voiceFileOpenErr then .error (.errWrapped "pockettts: open voice file")
    else .ok (parts ++ [.filePart "voice_wav" (baseName opts.VoiceWAVPath) env.voiceFileContent])
  else
    .ok parts

/-- The `ServerClient` state `Generate` reads (the base URL only carries
through; the `LogWriter` gates the one-line summary). -/
structure ServerClient where
  hasLogWriter : Bool := false
  deriving DecidableEq, Repr

/-- Result of one `ServerClient.Generate` call plus whether the HTTP
request was actually issued (`s.http.Do` reached). -/
structure ServerGenOutcome where
  result : Except TTSError WAVResult
  requestSent : Bool
  deriving DecidableEq, Repr

/-- `ServerClient.Generate` from `server.go`, transcribed in source order:
input validation (`ErrEmptyText`, before any request is built or sent),
nil-options defaulting, `buildTTSRequest`, the POST (`s.http.Do`), the
non-200 classification as `ErrNonZeroExit` with the HTTP status as exit
code and the first 512 body bytes as excerpt, body read, `parseWAVHeader`,
and on success a `WAVResult` whose `Stats.Duration` is the measured
elapsed time. -/
def ServerClient.Generate (_s : ServerClient) (env : ServerEnv) (text : String)
    (opts : Option ServerGenerateOptions) : ServerGenOutcome :=
  if trimSpace text = "" then
    { result := .error .errEmptyText, requestSent := false }
  else
    let o := opts.getD {}
    match buildTTSRequest text o env with
    | .error e => { result := .error e, requestSent := false }
    | .ok _parts =>
      if env.httpDoErr then
        { result := .error (.errWrapped "pockettts: TTS request"), requestSent := true }
      else if env.statusCode ≠ 200 then
        { result := .error
            (.errNonZeroExit env.statusCode (bytesToString (env.responseBody.take 512)))
          requestSent := true }
      else if env.readBodyErr then
        { result := .error (.errWrapped "pockettts: read TTS response"), requestSent := true }
      else
        match parseWAVHeader env.responseBody with
        | .error e => { result := .error e, requestSent := true }
        | .ok (sr, ch, bps) =>
          { result := .ok
              { Data := env.responseBody, SampleRate := sr, Channels := ch
                BitsPerSample := bps, Stats := { Duration := env.elapsed } }
            requestSent := true }

/-- Whether a validation outcome is a `MalformedPayload` failure. -/
def isMalformedPayload : Except TTSError (Nat × Nat × Nat) → Bool
  | .error (.errMalformedPayload _) => true
  | _ => false

/-- The optional flag tokens `buildArgs` can emit, in source order. -/
def flagTokens : List String :=
  ["--voice", "--config", "--temperature", "--lsd-decode-steps", "--noise-clamp",
   "--eos-threshold", "--frames-after-eos", "--max-tokens", "--quiet"]

/-- The formatted option values that can appear in the argument list. -/
def argValues (o : Options) : List String :=
  [o.Voice, o.Config, formatFloat o.Temperature, formatInt o.LSDDecodeSteps,
   formatFloat o.NoiseClamp, formatFloat o.EOSThreshold, formatInt o.FramesAfterEOS,
   formatInt o.MaxTokens]

/-- Number of adjacent positions in `l` holding exactly the pair `f, v`. -/
def pairCount : List String → String → String → Nat
  | a :: b :: rest, f, v => (if a = f ∧ b = v then 1 else 0) + pairCount (b :: rest) f v
  | _, _, _ => 0

/-- Number of occurrences of the token `f` in `l`. -/
def tokenCount : List String → String → Nat
  | [], _ => 0
  | a :: rest, f => (if a = f then 1 else 0) + tokenCount rest f

/-- A configuration is clean when none of its formatted option values is
itself one of the flag tokens (otherwise a value in the list is
indistinguishable from a flag by string comparison). -/
def cleanOptions (o : Options) : Prop :=
  ∀ f ∈ flagTokens, ∀ v ∈ argValues o, f ≠ v ∧ v ≠ f

instance (o : Options) : Decidable (cleanOptions o) := by
  unfold cleanOptions; infer_instance

/-- Every optional field is at its zero value. -/
def noOverrides (o : Options) : Prop :=
  o.Voice = "" ∧ o.Config = "" ∧ o.Temperature = 0 ∧ o.LSDDecodeSteps = 0 ∧
  o.NoiseClamp = 0 ∧ o.EOSThreshold = 0 ∧ o.FramesAfterEOS = 0 ∧ o.MaxTokens = 0 ∧
  o.Quiet = false

instance (o : Options) : Decidable (noOverrides o) := by
  unfold noOverrides; infer_instance

/-- Every optional field is set to a non-default value. -/
def allOverrides (o : Options) : Prop :=
  o.Voice ≠ "" ∧ o.Config ≠ "" ∧ o.Temperature ≠ 0 ∧ o.LSDDecodeSteps ≠ 0 ∧
  o.NoiseClamp ≠ 0 ∧ o.EOSThreshold ≠ 0 ∧ o.FramesAfterEOS ≠ 0 ∧ o.MaxTokens ≠ 0 ∧
  o.Quiet = true

instance (o : Options) : Decidable (allOverrides o) := by
  unfold allOverrides; infer_instance

/-- A valid 44-byte WAV payload (24000 Hz, mono, 16-bit) for concrete
evaluations. -/
def goldenWAV : List Byte := makeWAVHeader 24000 1 16

/-- Request options carrying both a remote voice reference and a local
voice-file path (the ambiguous configuration of C10). -/
def bothVoices : ServerGenerateOptions where
  VoiceURL := "https://example.com/v.wav"
  VoiceWAVPath := "/tmp/v.wav"

/-- A configuration with every optional field set to a non-default value,
used to witness the amended C8. -/
def allSetOptions : Options where
  Voice := "v"
  Config := "c"
  Temperature := 1
  LSDDecodeSteps := 2
  NoiseClamp := 3
  EOSThreshold := 4
  FramesAfterEOS := 5
  MaxTokens := 6
  Quiet := true

theorem mem_pair_ite {f a b : String} {c : Prop} [Decidable c] :
    f ∈ (if c then [a, b] else ([] : List String)) ↔ c ∧ (f = a ∨ f = b) := by
  by_cases h : c <;> simp [h]

theorem mem_single_ite {f a : String} {c : Prop} [Decidable c] :
    f ∈ (if c then [a] else ([] : List String)) ↔ c ∧ f = a := by
  by_cases h : c <;> simp [h]

/-- C1: `runner.run` error classification. If `cmd.Start` fails with
not-found semantics, the call returns `ErrExecutableNotFound` and no
process was created; if `cmd.Wait` returns an error and the context is
cancelled/expired at that point, the call returns `ErrProcessTimeout`
carrying the captured (truncated) stderr excerpt, irrespective of the exit
code (which stays universally quantified); otherwise a failing wait
returns `ErrNonZeroExit` carrying the exact numeric exit code and the
stderr excerpt. -/
theorem c1_run_error_classification (r : Runner) (env : ProcEnv) (args : List String)
    (payload : List Byte) :
    (env.stdinPipeErr = false → env.startNotFound = true →
      (r.run env args payload).result = .error (.errExecutableNotFound r.effectiveExe) ∧
      (r.run env args payload).processCreated = false) ∧
    (env.stdinPipeErr = false → env.startNotFound = false → env.startOtherErr = false →
      env.stdinWriteErr = false → env.waitErr = true → env.ctxDone = true →
      (r.run env args payload).result = .error (.errProcessTimeout (truncate env.stderr 512))) ∧
    (env.stdinPipeErr = false → env.startNotFound = false → env.startOtherErr = false →
      env.stdinWriteErr = false → env.waitErr = true → env.ctxDone = false →
      (r.run env args payload).result =
        .error (.errNonZeroExit env.exitCode (truncate env.stderr 512))) := by
  refine ⟨fun h1 h2 => ?_, fun h1 h2 h3 h4 h5 h6 => ?_, fun h1 h2 h3 h4 h5 h6 => ?_⟩ <;>
    simp [Runner.run, h1, h2, *]

/-- Witness for C1 at concrete environments: a not-found start on the
default runner, a cancelled wait with captured stderr (note the exit code
7 is ignored), and a plain non-zero exit with exit code 3. -/
theorem c1_run_error_classification_witness :
    ((({} : Runner).run { startNotFound := true } [] []).result =
      .error (.errExecutableNotFound "pocket-tts") ∧
     (({} : Runner).run { startNotFound := true } [] []).processCreated = false) ∧
    ((({} : Runner).run { waitErr := true, ctxDone := true, exitCode := 7, stderr := "boom" }
        [] []).result = .error (.errProcessTimeout "boom")) ∧
    ((({} : Runner).run { waitErr := true, exitCode := 3, stderr := "bad" } [] []).result =
      .error (.errNonZeroExit 3 "bad")) := by
  refine ⟨(c1_run_error_classification {} { startNotFound := true } [] []).1 rfl rfl, ?_, ?_⟩
  · have h := (c1_run_error_classification {}
      { waitErr := true, ctxDone := true, exitCode := 7, stderr := "boom" } [] []).2.1
      rfl rfl rfl rfl rfl rfl
    simpa [truncate] using h
  · have h := (c1_run_error_classification {}
      { waitErr := true, exitCode := 3, stderr := "bad" } [] []).2.2
      rfl rfl rfl rfl rfl rfl
    simpa [truncate] using h

/-- C2 counterexample: the claim states the runner waits for process
completion (step 3) and joins the writer's completion only afterwards
(step 4); in the source, `wg.Wait()` (line 66) joins the writer strictly
before `cmd.Wait()` (line 72), so wait-for-exit does not precede the
writer join. -/
theorem c2_wait_before_join_refuted :
    ¬ stepIndex RunStep.waitForExit < stepIndex RunStep.joinStdinWriter := by
  decide

/-- C2 amended: the stdin write does run on its own concurrent task
(`go func`), and the order of lifecycle steps is: start the process,
launch the concurrent writer, join the writer's completion, and only then
wait for process exit — i.e. the writer join precedes the wait, not the
other way round. -/
theorem c2_runner_step_order :
    stdinWriterConcurrent = true ∧
    stepIndex RunStep.startProcess < stepIndex RunStep.spawnStdinWriter ∧
    stepIndex RunStep.spawnStdinWriter < stepIndex RunStep.joinStdinWriter ∧
    stepIndex RunStep.joinStdinWriter < stepIndex RunStep.waitForExit := by
  decide

/-- C3: for every text that is empty or whitespace-only, both the CLI-path
`Client.generate` and the server-path `ServerClient.Generate` fail with
`ErrEmptyText` and perform zero operations: no slot is acquired, no
subprocess is started, no HTTP request is sent. -/
theorem c3_empty_input_rejected (c : Client) (adm : AdmissionOutcome) (env : ProcEnv)
    (s : ServerClient) (senv : ServerEnv) (sopts : Option ServerGenerateOptions)
    (text : String) (h : trimSpace text = "") :
    c.generate adm env text = { result := .error .errEmptyText, effects := {} } ∧
    s.Generate senv text sopts = { result := .error .errEmptyText, requestSent := false } := by
  constructor <;> simp [Client.generate, ServerClient.Generate, h]

/-- Witness for C3 at the whitespace-only text `"   \t\n  "`. -/
theorem c3_empty_input_rejected_witness :
    ({ opts := {}, sem := none } : Client).generate .slotGranted {} "   \t\n  " =
      { result := .error .errEmptyText, effects := {} } ∧
    ({} : ServerClient).Generate {} "   \t\n  " none =
      { result := .error .errEmptyText, requestSent := false } :=
  c3_empty_input_rejected { opts := {}, sem := none } .slotGranted {} {} {} none
    "   \t\n  " (by decide)

/-- C5: on a client built with a positive concurrency cap, when all slots
are held and the context is cancelled/expires before one frees
(`ctx.Done()` wins the select), `generate` fails with `ErrProcessTimeout`
carrying the admission-wait message, and no slot is taken and no
subprocess is started (`effects = {}`). -/
theorem c5_admission_timeout (opts : Options) (env : ProcEnv) (text : String)
    (hcap : 0 < opts.Concurrency) (htext : trimSpace text ≠ "") :
    (newClient opts).generate .ctxDoneFirst env text =
      { result := .error
          (.errProcessTimeout "context cancelled while waiting for concurrency slot")
        effects := {} } := by
  simp [Client.generate, newClient, htext, hcap]

/-- Witness for C5: capacity 1, text `"hello"`, default environment. -/
theorem c5_admission_timeout_witness :
    (newClient { Concurrency := 1 }).generate .ctxDoneFirst {} "hello" =
      { result := .error
          (.errProcessTimeout "context cancelled while waiting for concurrency slot")
        effects := {} } :=
  c5_admission_timeout { Concurrency := 1 } {} "hello" (by decide) (by decide)

/-- C4: when the subprocess run succeeds (exit code zero) but wrote no
bytes to standard output, `Client.generate` fails with `ErrNonZeroExit`
carrying a synthetic zero exit code and an explanatory message; and no
successful result ever carries an empty payload. -/
theorem c4_empty_stdout_is_error (c : Client) (adm : AdmissionOutcome) (env : ProcEnv)
    (text : String) :
    (trimSpace text ≠ "" → adm = .slotGranted → env.stdinPipeErr = false →
      env.startNotFound = false → env.startOtherErr = false → env.stdinWriteErr = false →
      env.waitErr = false → env.stdout = [] →
      (c.generate adm env text).result =
        .error (.errNonZeroExit 0 "empty stdout — no WAV produced")) ∧
    (∀ w, (c.generate adm env text).result = .ok w → w.Data ≠ []) := by
  constructor
  · intro h1 h2 h3 h4 h5 h6 h7 h8
    subst h2
    rcases hs : c.sem with _ | cap <;>
      simp [Client.generate, Runner.run, hs, h1, h3, h4, h5, h6, h7, h8]
  · intro w hw
    by_cases ht : trimSpace text = ""
    · simp [Client.generate, ht] at hw
    · simp only [Client.generate, if_neg ht] at hw
      rcases hs : c.sem with _ | cap <;> rw [hs] at hw <;> cases adm <;> simp only [] at hw <;>
        try simp at hw
      all_goals {
        rcases hro : ((cliRunner c).run env c.buildArgs (strBytes text)).result with e | res
        all_goals rw [hro] at hw
        · simp at hw
        · by_cases hnil : res.stdout = []
          · simp [hnil] at hw
          · simp only [hnil, if_false] at hw
            rcases hp : parseWAVHeader res.stdout with e | ⟨sr, ch, bps⟩ <;> rw [hp] at hw <;>
              simp at hw
            rw [← hw]
            exact hnil
      }

/-- Witness for C4: a successful run with empty stdout on a gate-less
client yields the synthetic zero-code error, and a concrete successful
result has a non-empty payload. -/
theorem c4_empty_stdout_is_error_witness :
    (({ opts := {}, sem := none } : Client).generate .slotGranted {} "hi").result =
      .error (.errNonZeroExit 0 "empty stdout — no WAV produced") ∧
    ({ Data := makeWAVHeader 24000 1 16, SampleRate := 24000, Channels := 1,
       BitsPerSample := 16 } : WAVResult).Data ≠ [] := by
  constructor
  · exact (c4_empty_stdout_is_error { opts := {}, sem := none } .slotGranted {} "hi").1
      (by decide) rfl rfl rfl rfl rfl rfl rfl
  · exact (c4_empty_stdout_is_error { opts := {}, sem := none } .slotGranted
      { stdout := makeWAVHeader 24000 1 16 } "hi").2 _ (by decide)

/-- C6: on every exit path of `Client.generate` the semaphore occupancy
delta is zero (a slot is released exactly when it was acquired), and for a
concurrency cap of zero or negative there is no gate at all (the semaphore
field is nil, not a large bound), while a positive cap creates the
semaphore with exactly that capacity. -/
theorem c6_slot_balance_and_no_gate (opts : Options) (adm : AdmissionOutcome)
    (env : ProcEnv) (text : String) :
    (((newClient opts).generate adm env text).effects.slotAcquired =
      ((newClient opts).generate adm env text).effects.slotReleased) ∧
    (opts.Concurrency ≤ 0 → (newClient opts).sem = none) ∧
    (0 < opts.Concurrency → (newClient opts).sem = some opts.Concurrency) := by
  refine ⟨?_, fun h => ?_, fun h => ?_⟩
  · simp only [Client.generate]
    (repeat' split) <;> rfl
  · simp [newClient, not_lt.mpr h]
  · simp [newClient, h]

/-- Witness for C6: slot balance at a concrete call, the absent gate at
cap 0 and at cap -3, and the capacity-2 gate at cap 2. -/
theorem c6_slot_balance_and_no_gate_witness :
    (((newClient { Concurrency := 2 }).generate .slotGranted {} "hi").effects.slotAcquired =
      ((newClient { Concurrency := 2 }).generate .slotGranted {} "hi").effects.slotReleased) ∧
    (newClient { Concurrency := 0 }).sem = none ∧
    (newClient { Concurrency := -3 }).sem = none ∧
    (newClient { Concurrency := 2 }).sem = some 2 :=
  ⟨(c6_slot_balance_and_no_gate { Concurrency := 2 } .slotGranted {} "hi").1,
   (c6_slot_balance_and_no_gate { Concurrency := 0 } .slotGranted {} "hi").2.1 (by decide),
   (c6_slot_balance_and_no_gate { Concurrency := -3 } .slotGranted {} "hi").2.1 (by decide),
   (c6_slot_balance_and_no_gate { Concurrency := 2 } .slotGranted {} "hi").2.2 (by decide)⟩

/-- C7: the payload validator round-trips the constructed header —
validating `makeWAVHeader 24000 1 16` returns exactly `(24000, 1, 16)` —
and fails with `MalformedPayload` on every buffer shorter than the
44-byte minimal header, on every buffer with a corrupted `RIFF`/`WAVE`
magic signature, and whenever any of the three extracted numeric fields
is zero. -/
theorem c7_wav_header_roundtrip :
    parseWAVHeader (makeWAVHeader 24000 1 16) = .ok (24000, 1, 16) ∧
    (∀ d : List Byte, d.length < 44 → isMalformedPayload (parseWAVHeader d) = true) ∧
    (∀ d : List Byte,
      bytesAt d 0 4 ≠ magicBytes "RIFF" ∨ bytesAt d 8 4 ≠ magicBytes "WAVE" →
      isMalformedPayload (parseWAVHeader d) = true) ∧
    (∀ (d : List Byte) (sr ch bps : Nat), decodeWAVInfo d = some (sr, ch, bps) →
      sr = 0 ∨ ch = 0 ∨ bps = 0 → isMalformedPayload (parseWAVHeader d) = true) := by
  refine ⟨by decide, ?_, ?_, ?_⟩
  · intro d h
    by_cases h0 : d.length = 0 <;>
      simp [parseWAVHeader, decodeWAVInfo, h, h0, isMalformedPayload]
  · intro d h
    by_cases h44 : d.length < 44
    · by_cases h0 : d.length = 0 <;>
        simp [parseWAVHeader, decodeWAVInfo, h44, h0, isMalformedPayload]
    · have h0 : ¬ d.length = 0 := by omega
      rcases h with h1 | h2
      · simp [parseWAVHeader, decodeWAVInfo, h44, h0, h1, isMalformedPayload]
      · by_cases h1 : bytesAt d 0 4 = magicBytes "RIFF" <;>
          simp [parseWAVHeader, decodeWAVInfo, h44, h0, h1, h2, isMalformedPayload]
  · intro d sr ch bps hdec hz
    have h44 : ¬ d.length < 44 := by
      intro h
      simp [decodeWAVInfo, h] at hdec
    have h0 : ¬ d.length = 0 := by omega
    simp [parseWAVHeader, h0, hdec, hz, isMalformedPayload]

/-- Witness for C7: a 3-byte buffer, a 44-byte all-zero buffer (corrupted
magic), and a well-formed header whose sample-rate field is zero all fail
with `MalformedPayload`. -/
theorem c7_wav_header_roundtrip_witness :
    isMalformedPayload (parseWAVHeader [82, 73, 70]) = true ∧
    isMalformedPayload (parseWAVHeader (List.replicate 44 0)) = true ∧
    isMalformedPayload (parseWAVHeader (makeWAVHeader 0 1 16)) = true :=
  ⟨c7_wav_header_roundtrip.2.1 _ (by decide),
   c7_wav_header_roundtrip.2.2.1 _ (Or.inl (by decide)),
   c7_wav_header_roundtrip.2.2.2 _ 0 1 16 (by decide) (Or.inl rfl)⟩

/-- C8 counterexample: the claim's "a given option's flag appears in the
built argument list if and only if that option differs from its zero
value" fails for the configuration whose `Voice` is the string
`"--quiet"`: the token `--quiet` appears in the list (as the voice value)
while the `Quiet` option is at its zero value `false`. -/
theorem c8_flag_iff_refuted :
    "--quiet" ∈ (newClient { Voice := "--quiet" }).buildArgs ∧
    ({ Voice := "--quiet" } : Options).Quiet = false := by
  decide

/-- C8 amended: for every configuration none of whose formatted option
values is itself a flag token, a flag appears in the built argument list
iff its option differs from its zero value; with all optional fields zero
no flag appears at all; and with every field non-default each flag is
immediately followed by its formatted value with the pair present exactly
once (and `--quiet` present exactly once). -/
theorem c8_buildArgs_flag_mapping (o : Options) (hclean : cleanOptions o) :
    (("--voice" ∈ (newClient o).buildArgs ↔ o.Voice ≠ "") ∧
     ("--config" ∈ (newClient o).buildArgs ↔ o.Config ≠ "") ∧
     ("--temperature" ∈ (newClient o).buildArgs ↔ o.Temperature ≠ 0) ∧
     ("--lsd-decode-steps" ∈ (newClient o).buildArgs ↔ o.LSDDecodeSteps ≠ 0) ∧
     ("--noise-clamp" ∈ (newClient o).buildArgs ↔ o.NoiseClamp ≠ 0) ∧
     ("--eos-threshold" ∈ (newClient o).buildArgs ↔ o.EOSThreshold ≠ 0) ∧
     ("--frames-after-eos" ∈ (newClient o).buildArgs ↔ o.FramesAfterEOS ≠ 0) ∧
     ("--max-tokens" ∈ (newClient o).buildArgs ↔ o.MaxTokens ≠ 0) ∧
     ("--quiet" ∈ (newClient o).buildArgs ↔ o.Quiet = true)) ∧
    (noOverrides o → ∀ f ∈ flagTokens, f ∉ (newClient o).buildArgs) ∧
    (allOverrides o →
      pairCount (newClient o).buildArgs "--voice" o.Voice = 1 ∧
      pairCount (newClient o).buildArgs "--config" o.Config = 1 ∧
      pairCount (newClient o).buildArgs "--temperature" (formatFloat o.Temperature) = 1 ∧
      pairCount (newClient o).buildArgs "--lsd-decode-steps" (formatInt o.LSDDecodeSteps) = 1 ∧
      pairCount (newClient o).buildArgs "--noise-clamp" (formatFloat o.NoiseClamp) = 1 ∧
      pairCount (newClient o).buildArgs "--eos-threshold" (formatFloat o.EOSThreshold) = 1 ∧
      pairCount (newClient o).buildArgs "--frames-after-eos" (formatInt o.FramesAfterEOS) = 1 ∧
      pairCount (newClient o).buildArgs "--max-tokens" (formatInt o.MaxTokens) = 1 ∧
      tokenCount (newClient o).buildArgs "--quiet" = 1) := by
  simp only [cleanOptions, flagTokens, argValues] at hclean
  simp only [List.mem_cons, List.not_mem_nil, or_false, forall_eq_or_imp, forall_eq] at hclean
  refine ⟨?_, ?_, ?_⟩
  · simp [newClient, Client.buildArgs, List.mem_append, mem_pair_ite, mem_single_ite, hclean]
  · intro hno f hf
    obtain ⟨n1, n2, n3, n4, n5, n6, n7, n8, n9⟩ := hno
    have hargs : (newClient o).buildArgs = ["generate", "--text", "-", "--output-path", "-"] := by
      simp [newClient, Client.buildArgs, n1, n2, n3, n4, n5, n6, n7, n8, n9]
    rw [hargs]
    simp only [flagTokens] at hf
    fin_cases hf <;> decide
  · intro hall
    obtain ⟨a1, a2, a3, a4, a5, a6, a7, a8, a9⟩ := hall
    have hargs : (newClient o).buildArgs =
        ["generate", "--text", "-", "--output-path", "-", "--voice", o.Voice,
         "--config", o.Config, "--temperature", formatFloat o.Temperature,
         "--lsd-decode-steps", formatInt o.LSDDecodeSteps,
         "--noise-clamp", formatFloat o.NoiseClamp,
         "--eos-threshold", formatFloat o.EOSThreshold,
         "--frames-after-eos", formatInt o.FramesAfterEOS,
         "--max-tokens", formatInt o.MaxTokens, "--quiet"] := by
      simp [newClient, Client.buildArgs, a1, a2, a3, a4, a5, a6, a7, a8, a9]
    rw [hargs]
    refine ⟨?_, ?_, ?_, ?_, ?_, ?_, ?_, ?_, ?_⟩ <;> simp [pairCount, tokenCount, hclean]

/-- Witness for C8 amended: the `--voice` iff at the all-set
configuration, the absence of `--voice` at the all-zero configuration,
and the exactly-once pair/token counts at the all-set configuration. -/
theorem c8_buildArgs_flag_mapping_witness :
    ("--voice" ∈ (newClient allSetOptions).buildArgs ↔ ("v" : String) ≠ "") ∧
    "--voice" ∉ (newClient ({} : Options)).buildArgs ∧
    pairCount (newClient allSetOptions).buildArgs "--voice" "v" = 1 ∧
    pairCount (newClient allSetOptions).buildArgs "--temperature" "1" = 1 ∧
    tokenCount (newClient allSetOptions).buildArgs "--quiet" = 1 :=
  ⟨(c8_buildArgs_flag_mapping allSetOptions (by decide)).1.1,
   (c8_buildArgs_flag_mapping {} (by decide)).2.1 (by decide) "--voice" (by decide),
   ((c8_buildArgs_flag_mapping allSetOptions (by decide)).2.2 (by decide)).1,
   ((c8_buildArgs_flag_mapping allSetOptions (by decide)).2.2 (by decide)).2.2.1,
   ((c8_buildArgs_flag_mapping allSetOptions (by decide)).2.2 (by decide)).2.2.2.2.2.2.2.2⟩

/-- C9 (divergence exhibited): on the CLI path a fully successful
`Client.generate` returns a `WAVResult` whose `Stats.Duration` is the zero
value — the CLI path never measures elapsed time — whereas on the server
path the same successful payload comes back with `Stats.Duration` set to
the measured elapsed time (123 here). -/
theorem c9_cli_duration_zero :
    ((({ opts := {}, sem := none } : Client).generate .slotGranted
          { stdout := goldenWAV } "Hello.").result =
        .ok { Data := goldenWAV, SampleRate := 24000, Channels := 1,
              BitsPerSample := 16, Stats := { Duration := 0 } }) ∧
    ((({} : ServerClient).Generate { responseBody := goldenWAV, elapsed := 123 }
          "Hello." none).result =
        .ok { Data := goldenWAV, SampleRate := 24000, Channels := 1,
              BitsPerSample := 16, Stats := { Duration := 123 } }) := by
  constructor <;> decide

/-- C10 counterexample: with both a remote voice reference and a local
voice-file path supplied, no configuration error is surfaced before the
request is sent — the request body is built successfully with only the
`voice_url` field (the upload silently dropped), the HTTP request is then
actually issued, and the call succeeds. -/
theorem c10_error_surfaced_refuted :
    buildTTSRequest "Hello." bothVoices {} =
      .ok [.field "text" "Hello.", .field "voice_url" "https://example.com/v.wav"] ∧
    (({} : ServerClient).Generate { responseBody := goldenWAV } "Hello."
        (some bothVoices)).requestSent = true ∧
    (({} : ServerClient).Generate { responseBody := goldenWAV } "Hello."
        (some bothVoices)).result =
      .ok { Data := goldenWAV, SampleRate := 24000, Channels := 1,
            BitsPerSample := 16, Stats := { Duration := 0 } } := by
  refine ⟨by decide, by decide, by decide⟩

/-- C10 amended: whenever the remote voice reference is non-empty, the
built multipart body consists of exactly the `text` field and the
`voice_url` field — no `voice_wav` file part is created and no error is
surfaced — irrespective of the local voice-file path (silent precedence of
the remote reference). -/
theorem c10_voice_url_precedence (text url path : String) (env : ServerEnv)
    (h : url ≠ "") :
    buildTTSRequest text { VoiceURL := url, VoiceWAVPath := path } env =
      .ok [.field "text" text, .field "voice_url" url] := by
  simp [buildTTSRequest, h]

/-- Witness for C10 amended at a concrete ambiguous configuration. -/
theorem c10_voice_url_precedence_witness :
    buildTTSRequest "hi" { VoiceURL := "hf://v", VoiceWAVPath := "/x.wav" } {} =
      .ok [.field "text" "hi", .field "voice_url" "hf://v"] :=
  c10_voice_url_precedence "hi" "hf://v" "/x.wav" {} (by decide)

end PocketTTS
